import Mathlib

/-!
Shallow embedding of `src/resize.py` (FastGS multiprocess JPG resizer).

Modelling choices:
* Python `float` values (the `--percent` argument) are modelled as exact
  rationals `ℚ`; Python `int` arguments as `ℤ`; image dimensions as `ℕ`.
* Python `int(x)` on a float is truncation toward zero (`pyTrunc`).
* Python truthiness of optional numbers (`if percent:`, `elif width and not
  height:`, `args.workers if args.workers else cpu_count()`) is modelled by
  `truthyQ` / `truthyZ`: `None` and `0` are falsy, every other number truthy.
* The external codec library (PIL) is modelled only where the script calls
  it; its failure modes (unreadable file, decode error, write error) are
  inputs of the model (`FileData`).
-/

namespace FastGS

/-- Python `int()` applied to a rational: truncation toward zero. -/
def pyTrunc (q : ℚ) : ℤ := if 0 ≤ q then ⌊q⌋ else -⌊-q⌋

/-- Python truthiness of an optional float: `None` and `0.0` are falsy. -/
def truthyQ : Option ℚ → Bool
  | Option.none => false
  | Option.some p => decide (p ≠ 0)

/-- Python truthiness of an optional int: `None` and `0` are falsy. -/
def truthyZ : Option ℤ → Bool
  | Option.none => false
  | Option.some n => decide (n ≠ 0)

/-- The sizing arguments of one invocation: `--width`, `--height`,
`--percent`, `--exact`, `--aspect` (source: `argparse` setup in `main`,
src/resize.py lines 111-148; the source calls the flags `exact`/`aspect`). -/
structure SizeConfig where
  width : Option ℤ
  height : Option ℤ
  percent : Option ℚ
  exactFlag : Bool
  aspectFlag : Bool
deriving DecidableEq

/-- The six resize strategies of the cascade in `resize_image`
(src/resize.py lines 55-85). -/
inductive Strategy where
  | percentMode
  | exactMode
  | widthOnly
  | heightOnly
  | aspectFit
  | defaultMode
deriving DecidableEq

/-- Modelled from the spec: the bounded-fit routine of the external codec library
(`Image.thumbnail`), whose code is not part of this repository.  Spec §4.1
mode 5 and the design notes fix its semantics as "scale factor =
min(targetW/W, targetH/H), never exceeding 1.0", preserving aspect ratio;
dimensions are kept as exact rationals. -/
def thumbnailFit (W H : ℕ) (w h : ℤ) : ℚ × ℚ :=
  let s : ℚ := min 1 (min ((w : ℚ) / (W : ℚ)) ((h : ℚ) / (H : ℚ)))
  ((W : ℚ) * s, (H : ℚ) * s)

/-- The target-dimension computation of `resize_image`
(src/resize.py lines 55-85): a first-match-wins cascade on the sizing
arguments, applied to an image of original size `W × H`.  Returns the chosen
strategy and the target dimensions; `none` models the `TypeError` raised
when a branch reads a dimension that was not supplied (caught by the
surrounding `try`). -/
def computeTarget (cfg : SizeConfig) (W H : ℕ) : Option (Strategy × ℚ × ℚ) :=
  if truthyQ cfg.percent then
    match cfg.percent with
    | Option.some p =>
        Option.some (Strategy.percentMode,
          (pyTrunc ((W : ℚ) * p / 100) : ℚ), (pyTrunc ((H : ℚ) * p / 100) : ℚ))
    | Option.none => Option.none
  else if cfg.exactFlag then
    match cfg.width, cfg.height with
    | Option.some w, Option.some h =>
        Option.some (Strategy.exactMode, (w : ℚ), (h : ℚ))
    | _, _ => Option.none
  else if truthyZ cfg.width && !truthyZ cfg.height then
    match cfg.width with
    | Option.some w =>
        Option.some (Strategy.widthOnly, (w : ℚ),
          (pyTrunc ((w : ℚ) * ((H : ℚ) / (W : ℚ))) : ℚ))
    | Option.none => Option.none
  else if truthyZ cfg.height && !truthyZ cfg.width then
    match cfg.height with
    | Option.some h =>
        Option.some (Strategy.heightOnly,
          (pyTrunc ((h : ℚ) * ((W : ℚ) / (H : ℚ))) : ℚ), (h : ℚ))
    | Option.none => Option.none
  else if cfg.aspectFlag then
    match cfg.width, cfg.height with
    | Option.some w, Option.some h =>
        Option.some (Strategy.aspectFit,
          (thumbnailFit W H w h).1, (thumbnailFit W H w h).2)
    | _, _ => Option.none
  else
    match cfg.width, cfg.height with
    | Option.some w, Option.some h =>
        Option.some (Strategy.defaultMode, (w : ℚ), (h : ℚ))
    | _, _ => Option.none

/-- The strategy picked by the selection cascade of the spec (§4.1,
presence-based wording); used to state the mode-selection claim against `computeTarget`. -/
def specStrategy (cfg : SizeConfig) : Strategy :=
  if cfg.percent.isSome then Strategy.percentMode
  else if cfg.exactFlag then Strategy.exactMode
  else if cfg.width.isSome && !cfg.height.isSome then Strategy.widthOnly
  else if cfg.height.isSome && !cfg.width.isSome then Strategy.heightOnly
  else if cfg.aspectFlag then Strategy.aspectFit
  else Strategy.defaultMode

/-- The pre-flight argument validation of `main` (src/resize.py lines
163-189), in source order; `some msg` is the printed error followed by
`return`, `none` means the run proceeds.  (The input-directory existence
check at lines 159-161 is a filesystem concern outside the configuration.) -/
def validate (cfg : SizeConfig) : Option String :=
  if cfg.percent.any (fun p => decide (p ≤ 0)) then
    Option.some "Error: Percentage must be greater than 0"
  else if cfg.percent.isNone && cfg.width.isNone && cfg.height.isNone then
    Option.some "Error: Must specify either --percent, --width, --height, or both --width and --height"
  else if cfg.exactFlag && cfg.aspectFlag then
    Option.some "Error: Cannot use both --exact and --aspect flags"
  else if (cfg.exactFlag || cfg.aspectFlag) && (cfg.width.isNone || cfg.height.isNone) then
    Option.some "Error: --exact and --aspect flags require both --width and --height"
  else if cfg.width.any (fun w => decide (w ≤ 0)) then
    Option.some "Error: Width must be greater than 0"
  else if cfg.height.any (fun h => decide (h ≤ 0)) then
    Option.some "Error: Height must be greater than 0"
  else Option.none

/-- What the environment presents to one per-file task: the file may be
missing, undecodable, or an image of some size whose output write may fail.
These are the failure modes the spec lists for a task (spec §4.2 step 6). -/
inductive FileData where
  | missing
  | corrupt
  | image (W H : ℕ) (writeFails : Bool)
deriving DecidableEq

/-- The body of the `try` block of `resize_image` (src/resize.py lines
46-89): open and decode, compute target dimensions, resample, save.  Any
raised exception is an `Except.error` carrying the message of the exception
(`str(e)`); success returns the original and final dimensions used in the
status message.  The codec errors (unreadable file, decode failure,
refusal to write an empty JPEG, write failure) are modelled from the failure list of
the spec, since the library is external to the repository. -/
def resizeBody (cfg : SizeConfig) (fd : FileData) : Except String (ℕ × ℕ × ℚ × ℚ) :=
  match fd with
  | FileData.missing => Except.error "No such file or directory"
  | FileData.corrupt => Except.error "cannot identify image file"
  | FileData.image W H writeFails =>
    match computeTarget cfg W H with
    | Option.none => Except.error "argument must be a tuple of two integers"
    | Option.some (_, tw, th) =>
      if tw ≤ 0 ∨ th ≤ 0 then Except.error "cannot write empty image as JPEG"
      else if writeFails then Except.error "write error"
      else Except.ok (W, H, tw, th)

/-- One per-file result line of `resize_image` (src/resize.py lines 89-92):
either the success message with original and final dimensions, or the error
message naming the file. -/
inductive Outcome where
  | success (filename : String) (W H : ℕ) (tw th : ℚ)
  | failure (filename : String) (msg : String)
deriving DecidableEq

/-- The filename an outcome reports (`os.path.basename(input_path)` in both
message branches of `resize_image`). -/
def Outcome.filename : Outcome → String
  | Outcome.success n _ _ _ _ => n
  | Outcome.failure n _ => n

/-- `resize_image` (src/resize.py lines 34-92): run the body and catch every
exception at the task boundary, turning it into a failure outcome for the
file. -/
def resize_image (cfg : SizeConfig) (filename : String) (fd : FileData) : Outcome :=
  match resizeBody cfg fd with
  | Except.ok (W, H, tw, th) => Outcome.success filename W H tw th
  | Except.error e => Outcome.failure filename e

/-- The worker-count computation of `main` (src/resize.py line 221):
`args.workers if args.workers else cpu_count()` — a truthiness test, so
`--workers 0` falls back to the CPU count exactly like an omitted flag. -/
def numWorkers (workers : Option ℤ) (cpuCount : ℤ) : ℤ :=
  if truthyZ workers then workers.getD 0 else cpuCount

/-- The post-parse control flow of `main` (src/resize.py lines 156-247):
validate the configuration; on failure print the error and return with no
outcomes, otherwise map `resize_image` over the enumerated files with a pool
of `numWorkers` workers (`pool.map` preserves task order). -/
def runMain (cfg : SizeConfig) (workers : Option ℤ) (cpuCount : ℤ)
    (files : List (String × FileData)) : Except String (ℤ × List Outcome) :=
  match validate cfg with
  | Option.some e => Except.error e
  | Option.none =>
      Except.ok (numWorkers workers cpuCount,
        files.map (fun t => resize_image cfg t.1 t.2))

/-- Python `pathlib.Path(file).suffix` on a plain filename: the substring
from the last dot, unless that dot is the first or last character. -/
def pySuffix (name : List Char) : List Char :=
  match ((List.range name.length).filter (fun i => name.getD i ' ' == '.')).getLast? with
  | Option.none => []
  | Option.some i => if 0 < i ∧ i < name.length - 1 then name.drop i else []

/-- The extension set of `get_image_files` (src/resize.py line 97):
`.jpg`, `.jpeg`, `.JPG`, `.JPEG` (lowercase and uppercase variants only),
compared by exact string equality. -/
def jpgExts : List (List Char) :=
  [".jpg".data, ".jpeg".data, ".JPG".data, ".JPEG".data]

/-- `get_image_files` (src/resize.py lines 95-104): keep the directory
entries whose `Path(file).suffix` is in the extension set, in enumeration
order. -/
def get_image_files (files : List (List Char)) : List (List Char) :=
  files.filter (fun f => decide (pySuffix f ∈ jpgExts))

/-- The enumeration criterion as the claim words it: the suffix matches `.jpg`/`.jpeg`
case-insensitively. -/
def lowerSuffixMatches (f : List Char) : Prop :=
  (pySuffix f).map Char.toLower = ".jpg".data ∨
  (pySuffix f).map Char.toLower = ".jpeg".data

instance (f : List Char) : Decidable (lowerSuffixMatches f) := by
  unfold lowerSuffixMatches; infer_instance

/-- The rejection criterion exactly as the validation claim words it:
(a) no sizing method chosen, or (b) supplied percent ≤ 0, or (c) a supplied
width or height ≤ 0, or (d) both flags set, or (e) a flag set without both
width and height present. -/
def claimRejected (cfg : SizeConfig) : Prop :=
  (cfg.percent = Option.none ∧ cfg.width = Option.none ∧ cfg.height = Option.none) ∨
  (∃ p, cfg.percent = Option.some p ∧ p ≤ 0) ∨
  (∃ w, cfg.width = Option.some w ∧ w ≤ 0) ∨
  (∃ h, cfg.height = Option.some h ∧ h ≤ 0) ∨
  (cfg.exactFlag ∧ cfg.aspectFlag) ∨
  ((cfg.exactFlag ∨ cfg.aspectFlag) ∧ (cfg.width = Option.none ∨ cfg.height = Option.none))

/-- Width-only configuration used as the zero-height example: `--width 400`
alone passes validation. -/
def cfgWidth400 : SizeConfig :=
  { width := Option.some 400, height := Option.none, percent := Option.none,
    exactFlag := false, aspectFlag := false }

/-- Witness configuration for the cascade claim: percent given together with
both dimensions. -/
def cfgPercentAll : SizeConfig :=
  { width := Option.some 100, height := Option.some 100,
    percent := Option.some 50, exactFlag := false, aspectFlag := false }

/-- Percent-only witness configuration. -/
def cfgPercent75 : SizeConfig :=
  { width := Option.none, height := Option.none, percent := Option.some 75,
    exactFlag := false, aspectFlag := false }

theorem pyTrunc_eq_floor {q : ℚ} (h : 0 ≤ q) : pyTrunc q = ⌊q⌋ := if_pos h

theorem validate_none_iff (cfg : SizeConfig) :
    validate cfg = Option.none ↔
      (∀ p, cfg.percent = Option.some p → ¬p ≤ 0) ∧
      (cfg.percent ≠ Option.none ∨ cfg.width ≠ Option.none ∨ cfg.height ≠ Option.none) ∧
      ¬(cfg.exactFlag = true ∧ cfg.aspectFlag = true) ∧
      ((cfg.exactFlag = true ∨ cfg.aspectFlag = true) →
        cfg.width ≠ Option.none ∧ cfg.height ≠ Option.none) ∧
      (∀ w, cfg.width = Option.some w → ¬w ≤ 0) ∧
      (∀ h, cfg.height = Option.some h → ¬h ≤ 0) := by
  rcases cfg with ⟨wo, ho, po, ef, af⟩
  simp only [validate]
  rcases po with _ | p <;> rcases wo with _ | w <;> rcases ho with _ | h <;>
    cases ef <;> cases af <;>
      (try simp [Option.any, and_assoc]) <;>
      (try (split_ifs <;> simp_all [and_assoc]))

/-- C3: a configuration is rejected by the pre-flight validation exactly when
one of the five conditions of the claim holds; a rejected configuration makes
the run return the error with no outcomes produced, and a passing one
proceeds to map the per-file task over the enumerated files. -/
theorem validation_rejects_iff (cfg : SizeConfig) (workers : Option ℤ) (cpu : ℤ)
    (files : List (String × FileData)) :
    ((validate cfg).isSome ↔ claimRejected cfg) ∧
    (∀ e, validate cfg = Option.some e →
        runMain cfg workers cpu files = Except.error e) ∧
    (validate cfg = Option.none →
        runMain cfg workers cpu files =
          Except.ok (numWorkers workers cpu,
            files.map (fun t => resize_image cfg t.1 t.2))) := by
  refine ⟨?_, fun e he => by simp only [runMain, he], fun hn => by simp only [runMain, hn]⟩
  rw [Option.isSome_iff_ne_none, ne_eq, validate_none_iff]
  unfold claimRejected
  constructor
  · intro hnot
    by_contra hrej
    push_neg at hrej
    obtain ⟨r1, r2, r3, r4, r5, r6⟩ := hrej
    exact hnot ⟨fun p hp => not_le.mpr (r2 p hp), by tauto, by tauto, r6,
      fun w hw => not_le.mpr (r3 w hw), fun h hh => not_le.mpr (r4 h hh)⟩
  · intro hrej hconj
    obtain ⟨a1, a2, a3, a4, a5, a6⟩ := hconj
    rcases hrej with h | h | h | h | h | h <;> tauto

/-- C1: for every configuration passing validation, the strategy chosen by
the cascade of `resize_image` is the one the presence-based cascade of the
spec prescribes, in the order the spec gives; in particular a given percent
always wins. -/
theorem mode_cascade_follows_spec (cfg : SizeConfig) (W H : ℕ)
    (hv : validate cfg = Option.none) :
    (computeTarget cfg W H).map Prod.fst = Option.some (specStrategy cfg) ∧
    (cfg.percent ≠ Option.none → specStrategy cfg = Strategy.percentMode) := by
  rcases cfg with ⟨wo, ho, po, ef, af⟩
  obtain ⟨a1, a2, a3, a4, a5, a6⟩ := (validate_none_iff _).mp hv
  rcases po with _ | p
  · constructor
    · cases ef
      · rcases wo with _ | w
        · rcases ho with _ | h
          · simp at a2
          · have hh : h ≠ 0 := fun h0 => a6 h rfl (le_of_eq h0)
            simp [computeTarget, specStrategy, truthyQ, truthyZ, hh]
        · have hw : w ≠ 0 := fun h0 => a5 w rfl (le_of_eq h0)
          rcases ho with _ | h
          · simp [computeTarget, specStrategy, truthyQ, truthyZ, hw]
          · have hh : h ≠ 0 := fun h0 => a6 h rfl (le_of_eq h0)
            cases af <;>
              simp [computeTarget, specStrategy, truthyQ, truthyZ, hw, hh]
      · obtain ⟨hwn, hhn⟩ := a4 (Or.inl rfl)
        rcases wo with _ | w
        · exact absurd rfl hwn
        · rcases ho with _ | h
          · exact absurd rfl hhn
          · simp [computeTarget, specStrategy, truthyQ]
    · intro hpn
      exact absurd rfl hpn
  · have hp : p ≠ 0 := fun h0 => a1 p rfl (le_of_eq h0)
    exact ⟨by simp [computeTarget, specStrategy, truthyQ, hp],
      fun _ => by simp [specStrategy]⟩

/-- C6: in percent mode the target dimensions are the floors of W·p/100 and
H·p/100. -/
theorem percent_mode_floor_dims (cfg : SizeConfig) (W H : ℕ) (p : ℚ)
    (hp : cfg.percent = Option.some p) (hpos : 0 < p) :
    computeTarget cfg W H =
      Option.some (Strategy.percentMode,
        ((⌊(W : ℚ) * p / 100⌋ : ℤ) : ℚ), ((⌊(H : ℚ) * p / 100⌋ : ℤ) : ℚ)) := by
  have hne : p ≠ 0 := ne_of_gt hpos
  have h1 : (0:ℚ) ≤ (W : ℚ) * p / 100 := by positivity
  have h2 : (0:ℚ) ≤ (H : ℚ) * p / 100 := by positivity
  simp [computeTarget, hp, truthyQ, hne, pyTrunc_eq_floor h1, pyTrunc_eq_floor h2]

/-- C7: width-only mode keeps the requested width and truncates w·H/W toward
zero for the height; height-only mode is the symmetric computation. -/
theorem single_dimension_trunc_dims (W H : ℕ) (w h : ℤ) (hw : 0 < w) (hh : 0 < h) :
    computeTarget ⟨Option.some w, Option.none, Option.none, false, false⟩ W H =
      Option.some (Strategy.widthOnly, (w : ℚ),
        ((pyTrunc ((w : ℚ) * (H : ℚ) / (W : ℚ)) : ℤ) : ℚ)) ∧
    computeTarget ⟨Option.none, Option.some h, Option.none, false, false⟩ W H =
      Option.some (Strategy.heightOnly,
        ((pyTrunc ((h : ℚ) * (W : ℚ) / (H : ℚ)) : ℤ) : ℚ), (h : ℚ)) := by
  have hwne : w ≠ 0 := ne_of_gt hw
  have hhne : h ≠ 0 := ne_of_gt hh
  constructor <;>
    simp [computeTarget, truthyQ, truthyZ, hwne, hhne, mul_div_assoc]

/-- C8: with both dimensions given and no flag, the default branch computes
exactly what the exact branch computes: the requested pair verbatim. -/
theorem default_mode_equals_exact_mode (W H : ℕ) (w h : ℤ) (hw : 0 < w) (hh : 0 < h) :
    computeTarget ⟨Option.some w, Option.some h, Option.none, false, false⟩ W H =
      Option.some (Strategy.defaultMode, (w : ℚ), (h : ℚ)) ∧
    computeTarget ⟨Option.some w, Option.some h, Option.none, true, false⟩ W H =
      Option.some (Strategy.exactMode, (w : ℚ), (h : ℚ)) := by
  have hwne : w ≠ 0 := ne_of_gt hw
  have hhne : h ≠ 0 := ne_of_gt hh
  constructor <;> simp [computeTarget, truthyQ, truthyZ, hwne, hhne]

/-- C10: `--workers 0` is not rejected and behaves exactly like an omitted
`--workers`: the truthiness test makes both fall back to the CPU count. -/
theorem workers_zero_falls_back (cfg : SizeConfig) (cpu : ℤ)
    (files : List (String × FileData)) :
    numWorkers (Option.some 0) cpu = cpu ∧
    numWorkers Option.none cpu = cpu ∧
    runMain cfg (Option.some 0) cpu files = runMain cfg Option.none cpu files := by
  refine ⟨by simp [numWorkers, truthyZ], rfl, ?_⟩
  unfold runMain
  cases validate cfg <;> simp [numWorkers, truthyZ]

/-- C2 (amended): in aspect/bounded-fit mode the output fits inside the
requested bounds with the aspect ratio preserved, and either one axis equals
its bound or the image already fit and is returned at its original size. -/
theorem aspect_fit_bounds (W H : ℕ) (w h : ℤ)
    (hW : 0 < W) (hH : 0 < H) (hw : 0 < w) (hh : 0 < h) :
    ∃ tw th : ℚ,
      computeTarget ⟨Option.some w, Option.some h, Option.none, false, true⟩ W H =
        Option.some (Strategy.aspectFit, tw, th) ∧
      tw ≤ (w : ℚ) ∧ th ≤ (h : ℚ) ∧
      tw * (H : ℚ) = th * (W : ℚ) ∧
      (tw = (w : ℚ) ∨ th = (h : ℚ) ∨ (tw = (W : ℚ) ∧ th = (H : ℚ))) := by
  have hWQ : (0:ℚ) < (W:ℚ) := by exact_mod_cast hW
  have hHQ : (0:ℚ) < (H:ℚ) := by exact_mod_cast hH
  have hW0 : (W:ℚ) ≠ 0 := ne_of_gt hWQ
  have hH0 : (H:ℚ) ≠ 0 := ne_of_gt hHQ
  have hwne : w ≠ 0 := ne_of_gt hw
  have hhne : h ≠ 0 := ne_of_gt hh
  refine ⟨(W:ℚ) * min 1 (min ((w:ℚ)/(W:ℚ)) ((h:ℚ)/(H:ℚ))),
    (H:ℚ) * min 1 (min ((w:ℚ)/(W:ℚ)) ((h:ℚ)/(H:ℚ))), ?_, ?_, ?_, by ring, ?_⟩
  · simp [computeTarget, truthyQ, truthyZ, hwne, hhne, thumbnailFit]
  · have h1 : min 1 (min ((w:ℚ)/(W:ℚ)) ((h:ℚ)/(H:ℚ))) ≤ (w:ℚ)/(W:ℚ) :=
      le_trans (min_le_right _ _) (min_le_left _ _)
    calc (W:ℚ) * min 1 (min ((w:ℚ)/(W:ℚ)) ((h:ℚ)/(H:ℚ)))
        ≤ (W:ℚ) * ((w:ℚ)/(W:ℚ)) := mul_le_mul_of_nonneg_left h1 hWQ.le
      _ = (w:ℚ) := by field_simp
  · have h1 : min 1 (min ((w:ℚ)/(W:ℚ)) ((h:ℚ)/(H:ℚ))) ≤ (h:ℚ)/(H:ℚ) :=
      le_trans (min_le_right _ _) (min_le_right _ _)
    calc (H:ℚ) * min 1 (min ((w:ℚ)/(W:ℚ)) ((h:ℚ)/(H:ℚ)))
        ≤ (H:ℚ) * ((h:ℚ)/(H:ℚ)) := mul_le_mul_of_nonneg_left h1 hHQ.le
      _ = (h:ℚ) := by field_simp
  · rcases le_total 1 (min ((w:ℚ)/(W:ℚ)) ((h:ℚ)/(H:ℚ))) with h1 | h1
    · right; right
      rw [min_eq_left h1]
      exact ⟨mul_one _, mul_one _⟩
    · rw [min_eq_right h1]
      rcases le_total ((w:ℚ)/(W:ℚ)) ((h:ℚ)/(H:ℚ)) with h2 | h2
      · left
        rw [min_eq_left h2]
        field_simp
      · right; left
        rw [min_eq_right h2]
        field_simp

/-- C4: mapping the per-file task over a batch yields one outcome per file in
order; each outcome names its own file, and an exception inside the body is
converted into a failure outcome instead of propagating. -/
theorem batch_outcomes_isolated (cfg : SizeConfig) (tasks : List (String × FileData)) :
    (tasks.map (fun t => resize_image cfg t.1 t.2)).length = tasks.length ∧
    (∀ i : ℕ, (tasks.map (fun t => resize_image cfg t.1 t.2))[i]? =
        (tasks[i]?).map (fun t => resize_image cfg t.1 t.2)) ∧
    (∀ name fd, (resize_image cfg name fd).filename = name) ∧
    (∀ name fd e, resizeBody cfg fd = Except.error e →
        resize_image cfg name fd = Outcome.failure name e) := by
  refine ⟨List.length_map _ _, fun i => List.getElem?_map .., fun name fd => ?_,
    fun name fd e he => ?_⟩
  · rcases hb : resizeBody cfg fd with e | ⟨W, H, tw, th⟩ <;>
      simp [resize_image, Outcome.filename, hb]
  · simp [resize_image, he]

/-- C5 (amended): a directory entry is enumerated exactly when its
`Path.suffix` is literally one of `.jpg`, `.jpeg`, `.JPG`, `.JPEG`. -/
theorem enumeration_exact_suffix (files : List (List Char)) (f : List Char) :
    f ∈ get_image_files files ↔ f ∈ files ∧ pySuffix f ∈ jpgExts := by
  simp [get_image_files, List.mem_filter]

/-- C5 counterexample: `a.Jpg` matches `.jpg` case-insensitively yet is not
enumerated, because the code compares the suffix against a four-element set
of exact strings. -/
theorem enumeration_case_insensitive_counterexample :
    lowerSuffixMatches "a.Jpg".data ∧
    "a.Jpg".data ∈ ["a.Jpg".data] ∧
    "a.Jpg".data ∉ get_image_files ["a.Jpg".data] := by decide

/-- C2 counterexample: a 100×100 image under bounds (1000, 500) is returned
at 100×100 by the bounded-fit mode, so neither output axis equals its
requested bound. -/
theorem aspect_fit_tight_counterexample :
    computeTarget
        ⟨Option.some 1000, Option.some 500, Option.none, false, true⟩ 100 100 =
      Option.some (Strategy.aspectFit, (100 : ℚ), (100 : ℚ)) ∧
    (100 : ℚ) ≠ 1000 ∧ (100 : ℚ) ≠ 500 := by
  refine ⟨?_, by norm_num, by norm_num⟩
  norm_num [computeTarget, truthyQ, truthyZ, thumbnailFit, min_def]

/-- C9: the width-only configuration `--width 400` passes every validation
check, yet on a 1000×1 image the computed target height is 0, which can only
surface as a per-file failure outcome. -/
theorem validated_config_zero_target_height :
    validate cfgWidth400 = Option.none ∧
    computeTarget cfgWidth400 1000 1 =
      Option.some (Strategy.widthOnly, (400 : ℚ), (0 : ℚ)) ∧
    resize_image cfgWidth400 "wide.jpg" (FileData.image 1000 1 false) =
      Outcome.failure "wide.jpg" "cannot write empty image as JPEG" := by
  refine ⟨by decide, ?_, ?_⟩
  · norm_num [computeTarget, cfgWidth400, truthyQ, truthyZ, pyTrunc]
  · norm_num [resize_image, resizeBody, computeTarget, cfgWidth400,
      truthyQ, truthyZ, pyTrunc]

theorem mode_cascade_follows_spec_witness :
    (computeTarget cfgPercentAll 800 600).map Prod.fst =
      Option.some (specStrategy cfgPercentAll) ∧
    (cfgPercentAll.percent ≠ Option.none →
      specStrategy cfgPercentAll = Strategy.percentMode) :=
  mode_cascade_follows_spec cfgPercentAll 800 600 (by decide)

theorem aspect_fit_bounds_witness :
    ∃ tw th : ℚ,
      computeTarget ⟨Option.some 1000, Option.some 500, Option.none, false, true⟩
          800 600 =
        Option.some (Strategy.aspectFit, tw, th) ∧
      tw ≤ ((1000 : ℤ) : ℚ) ∧ th ≤ ((500 : ℤ) : ℚ) ∧
      tw * ((600 : ℕ) : ℚ) = th * ((800 : ℕ) : ℚ) ∧
      (tw = ((1000 : ℤ) : ℚ) ∨ th = ((500 : ℤ) : ℚ) ∨
        (tw = ((800 : ℕ) : ℚ) ∧ th = ((600 : ℕ) : ℚ))) :=
  aspect_fit_bounds 800 600 1000 500 (by decide) (by decide) (by decide) (by decide)

theorem validation_rejects_iff_witness :
    runMain cfgWidth400 Option.none 4 [("a.jpg", FileData.image 800 600 false)] =
      Except.ok (numWorkers Option.none 4,
        [("a.jpg", FileData.image 800 600 false)].map
          (fun t => resize_image cfgWidth400 t.1 t.2)) :=
  (validation_rejects_iff cfgWidth400 Option.none 4
      [("a.jpg", FileData.image 800 600 false)]).2.2 (by decide)

theorem batch_outcomes_isolated_witness :
    resize_image cfgWidth400 "bad.jpg" FileData.corrupt =
      Outcome.failure "bad.jpg" "cannot identify image file" :=
  (batch_outcomes_isolated cfgWidth400 []).2.2.2 "bad.jpg" FileData.corrupt
    "cannot identify image file" rfl

theorem percent_mode_floor_dims_witness :
    computeTarget cfgPercent75 800 600 =
      Option.some (Strategy.percentMode,
        ((⌊((800 : ℕ) : ℚ) * 75 / 100⌋ : ℤ) : ℚ),
        ((⌊((600 : ℕ) : ℚ) * 75 / 100⌋ : ℤ) : ℚ)) :=
  percent_mode_floor_dims cfgPercent75 800 600 75 rfl (by decide)

theorem single_dimension_trunc_dims_witness :
    computeTarget ⟨Option.some 400, Option.none, Option.none, false, false⟩ 800 600 =
      Option.some (Strategy.widthOnly, ((400 : ℤ) : ℚ),
        ((pyTrunc (((400 : ℤ) : ℚ) * ((600 : ℕ) : ℚ) / ((800 : ℕ) : ℚ)) : ℤ) : ℚ)) ∧
    computeTarget ⟨Option.none, Option.some 300, Option.none, false, false⟩ 800 600 =
      Option.some (Strategy.heightOnly,
        ((pyTrunc (((300 : ℤ) : ℚ) * ((800 : ℕ) : ℚ) / ((600 : ℕ) : ℚ)) : ℤ) : ℚ),
        ((300 : ℤ) : ℚ)) :=
  single_dimension_trunc_dims 800 600 400 300 (by decide) (by decide)

theorem default_mode_equals_exact_mode_witness :
    computeTarget ⟨Option.some 1920, Option.some 1080, Option.none, false, false⟩
        800 600 =
      Option.some (Strategy.defaultMode, ((1920 : ℤ) : ℚ), ((1080 : ℤ) : ℚ)) ∧
    computeTarget ⟨Option.some 1920, Option.some 1080, Option.none, true, false⟩
        800 600 =
      Option.some (Strategy.exactMode, ((1920 : ℤ) : ℚ), ((1080 : ℤ) : ℚ)) :=
  default_mode_equals_exact_mode 800 600 1920 1080 (by decide) (by decide)

end FastGS
